import Mathlib

/-!
Verification of the ToDo-API task classification core (Eisenhower matrix).

The embedding follows `src/routers/tasks.py`, `src/schemas.py` and
`src/main.py`.  The helper module `utils` (providing `calculate_urgency`,
`calculate_days_until_deadline` and `determine_quadrant`) is imported by
`tasks.py` but its file is not part of the sources, so those three
functions are modelled from the specification (sections 4.1 to 4.3); each
such definition says so in its doc comment.

Timestamps are modelled as plain integers (seconds since an arbitrary epoch);
a calendar day is `secondsPerDay` consecutive seconds, and the whole-day
difference between two timestamps is the floor of their difference in
days, which is what the specification fixes for the day computation.
-/

namespace ToDoAPI

/-- The length of a calendar day; timestamps are seconds since an epoch. -/
def secondsPerDay : Int := 86400

/-- Modelled from the spec: `utils.calculate_days_until_deadline` is not
among the sources.  Section 4.3 fixes it: absent deadline gives absent
days; otherwise the floor of `deadline - now` in whole days, possibly
negative. -/
def calculate_days_until_deadline (deadline : Option Int) (now : Int) :
    Option Int :=
  match deadline with
  | none => none
  | some d => some (Int.fdiv (d - now) secondsPerDay)

/-- Modelled from the spec: the urgency window, a single named constant of
whole days as section 4.1 requires ("due within N days").  Section 4.1
pins down only that a deadline today or earlier is urgent, i.e. the
window is at least 0; we take the minimal documented value. -/
def urgentWindowDays : Int := 0

/-- Modelled from the spec: `utils.calculate_urgency` is not among the
sources.  Section 4.1: no deadline is never urgent; a deadline is urgent
when it is today or earlier, or within the short forward window
`urgentWindowDays`. -/
def calculate_urgency (deadline : Option Int) (now : Int) : Bool :=
  match deadline with
  | none => false
  | some d => Int.fdiv (d - now) secondsPerDay ≤ urgentWindowDays

/-- Modelled from the spec: `utils.determine_quadrant` is not among the
sources.  Section 4.2 gives the full table of the four cases. -/
def determine_quadrant (is_important : Bool) (is_urgent : Bool) : String :=
  match is_important, is_urgent with
  | true,  true  => "Q1"
  | true,  false => "Q2"
  | false, true  => "Q3"
  | false, false => "Q4"

/-- The stored task entity, after `models.Task` as it is populated by
`create_task` in `src/routers/tasks.py` (the ORM model file itself is not
among the sources; field types follow the schemas and section 3 of the
spec: `completed_at` and `deadline_at` are nullable, the rest are not). -/
structure Task where
  id : Nat
  title : String
  description : Option String
  is_important : Bool
  is_urgent : Bool
  quadrant : String
  completed : Bool
  deadline_at : Option Int
  created_at : Int
  completed_at : Option Int
  user_id : Nat
deriving Repr, DecidableEq

/-- The create payload, after `schemas.TaskCreate`. -/
structure TaskCreate where
  title : String
  description : Option String
  is_important : Bool
  deadline_at : Option Int
deriving Repr, DecidableEq

/-- The partial-update payload, after `schemas.TaskUpdate` together with
the presence information `model_dump(exclude_unset=True)` recovers: for
each field, `none` means the caller omitted it, `some v` means the caller
sent it with value `v`.  For the nullable entity field `deadline_at`
(and for `description`) the sent value is itself optional, so an
explicit null is `some none`.  `title` and `is_important` map to
non-nullable entity fields, so the modelled payload domain carries their
present values at the entity type. -/
structure TaskUpdate where
  title : Option String
  description : Option (Option String)
  is_important : Option Bool
  deadline_at : Option (Option Int)
deriving Repr, DecidableEq

/-- The payload that omits every field. -/
def emptyUpdate : TaskUpdate :=
  { title := none, description := none, is_important := none, deadline_at := none }

/-- The setattr loop of `update_task` (src/routers/tasks.py lines 336-339):
each field present in `model_dump(exclude_unset=True)` is written onto the
stored entity, in the schema's field order; omitted fields are not
touched. -/
def apply_update (t : Task) (u : TaskUpdate) : Task :=
  let t1 := match u.title with
    | none => t
    | some v => { t with title := v }
  let t2 := match u.description with
    | none => t1
    | some v => { t1 with description := v }
  let t3 := match u.is_important with
    | none => t2
    | some v => { t2 with is_important := v }
  match u.deadline_at with
  | none => t3
  | some v => { t3 with deadline_at := v }

/-- The mutation of `create_task` (src/routers/tasks.py lines 284-296):
urgency is computed from the payload deadline, the quadrant from the
payload importance and that urgency, `completed` starts false and
`completed_at` absent (per section 3 of the spec, since the ORM model
file is not among the sources), and the storage layer supplies `id` and
`created_at`.  `now` is the clock reading the urgency computation uses. -/
def create_task (payload : TaskCreate) (id : Nat) (user_id : Nat)
    (created : Int) (now : Int) : Task :=
  let is_urgent := calculate_urgency payload.deadline_at now
  { id := id
    title := payload.title
    description := payload.description
    is_important := payload.is_important
    is_urgent := is_urgent
    quadrant := determine_quadrant payload.is_important is_urgent
    completed := false
    deadline_at := payload.deadline_at
    created_at := created
    completed_at := none
    user_id := user_id }

/-- The mutation of `update_task` (src/routers/tasks.py lines 336-343):
apply the present payload fields, then unconditionally recompute
`is_urgent` from the resulting deadline and `quadrant` from the resulting
importance and the fresh urgency.  `now` is the clock reading the urgency
computation uses. -/
def update_task (t : Task) (u : TaskUpdate) (now : Int) : Task :=
  let t' := apply_update t u
  let is_urgent := calculate_urgency t'.deadline_at now
  { t' with is_urgent := is_urgent
            quadrant := determine_quadrant t'.is_important is_urgent }

/-- The mutation of `complete_task` (src/routers/tasks.py lines 411-412):
set `completed` and stamp `completed_at` with the current clock reading. -/
def complete_task (t : Task) (now : Int) : Task :=
  { t with completed := true, completed_at := some now }

/-- The deadline-status block that every route repeats (e.g.
src/routers/tasks.py lines 260-269): the day count, and the message
chosen by its sign. -/
def deadline_status (deadline : Option Int) (now : Int) :
    Option Int × Option String :=
  match calculate_days_until_deadline deadline now with
  | none => (none, none)
  | some d =>
      (some d,
       some (if d < 0 then "Задача просрочена"
             else if d = 0 then "Дедлайн сегодня"
             else s!"До дедлайна осталось {d} дн."))

/-- Two timestamps fall on the same calendar day. -/
def same_day (a b : Int) : Prop :=
  Int.fdiv a secondsPerDay = Int.fdiv b secondsPerDay

instance (a b : Int) : Decidable (same_day a b) := by
  unfold same_day; infer_instance

/-- The consistency invariant of section 3 of the spec: the stored
quadrant is the resolver's output for the stored importance and urgency. -/
def quadrant_consistent (t : Task) : Prop :=
  t.quadrant = determine_quadrant t.is_important t.is_urgent

instance (t : Task) : Decidable (quadrant_consistent t) := by
  unfold quadrant_consistent; infer_instance

/-- The completion invariant of section 3 of the spec: `completed_at` is
present exactly when `completed` is true. -/
def completion_consistent (t : Task) : Prop :=
  t.completed_at.isSome = t.completed

instance (t : Task) : Decidable (completion_consistent t) := by
  unfold completion_consistent; infer_instance

/-- An entry of the legacy in-memory store `tasks_db` of `src/main.py`.
Dict keys that no seed entry carries (`deadline_at`, `completed_at`,
`user_id`) are modelled as options that are `none` when the key is
absent. -/
structure SeedTask where
  id : Nat
  title : String
  description : Option String
  is_important : Bool
  is_urgent : Bool
  quadrant : String
  completed : Bool
  created_at : Int
  completed_at : Option Int
deriving Repr, DecidableEq

/-- The seed store `tasks_db` of `src/main.py` (lines 16-57), built at
startup; `startup` is the clock reading `datetime.now()` returns then.
No entry carries a `completed_at` key. -/
def tasks_db (startup : Int) : List SeedTask :=
  [ { id := 1, title := "Сдать проект по FastAPI",
      description := some "Завершить разработку API и написать документацию",
      is_important := true, is_urgent := true, quadrant := "Q1",
      completed := false, created_at := startup, completed_at := none },
    { id := 2, title := "Изучить SQLAlchemy",
      description := some "Прочитать документацию и попробовать примеры",
      is_important := true, is_urgent := false, quadrant := "Q2",
      completed := false, created_at := startup, completed_at := none },
    { id := 3, title := "Сходить на лекцию",
      description := none,
      is_important := false, is_urgent := true, quadrant := "Q3",
      completed := false, created_at := startup, completed_at := none },
    { id := 4, title := "Посмотреть сериал",
      description := some "Новый сезон любимого сериала",
      is_important := false, is_urgent := false, quadrant := "Q4",
      completed := true, created_at := startup, completed_at := none } ]

/-- A concrete stored task used to instantiate the theorems below; its
derived fields are consistent the way `create_task` would produce them. -/
def sampleTask : Task :=
  { id := 1, title := "Сдать проект по FastAPI", description := none,
    is_important := true, is_urgent := false, quadrant := "Q2",
    completed := false, deadline_at := none, created_at := 0,
    completed_at := none, user_id := 1 }

/-- The payload of claim C9: only `is_important := true` is present. -/
def importantOnlyUpdate : TaskUpdate :=
  { title := none, description := none, is_important := some true,
    deadline_at := none }

/-- The payload of claim C10: `deadline_at` is present as explicit null. -/
def clearDeadlineUpdate : TaskUpdate :=
  { title := none, description := none, is_important := none,
    deadline_at := some none }

/-- Helper: the quadrant resolver only ever emits the four labels. -/
theorem determine_quadrant_mem_range (i u : Bool) :
    determine_quadrant i u ∈ ["Q1", "Q2", "Q3", "Q4"] := by
  cases i <;> cases u <;> decide

/-- Claim C1: for every pair of booleans the quadrant resolver returns
exactly the table value — important and urgent Q1, important only Q2,
urgent only Q3, neither Q4 — and its output is always one of the four
labels; being a total function, no input produces an error. -/
theorem C1_quadrant_table :
    determine_quadrant true true = "Q1" ∧
    determine_quadrant true false = "Q2" ∧
    determine_quadrant false true = "Q3" ∧
    determine_quadrant false false = "Q4" ∧
    ∀ i u : Bool, determine_quadrant i u ∈ ["Q1", "Q2", "Q3", "Q4"] := by
  refine ⟨rfl, rfl, rfl, rfl, ?_⟩
  decide

/-- Claim C2: the urgency classifier returns false whenever the deadline
is absent, and true whenever the deadline is in the past or falls on the
current day. -/
theorem C2_urgency_bounds :
    (∀ now : Int, calculate_urgency none now = false) ∧
    (∀ d now : Int, d < now ∨ same_day d now →
      calculate_urgency (some d) now = true) := by
  constructor
  · intro now; rfl
  · intro d now h
    unfold calculate_urgency urgentWindowDays
    simp only [decide_eq_true_eq]
    have hnn : (0 : Int) ≤ secondsPerDay := by norm_num [secondsPerDay]
    rw [Int.fdiv_eq_ediv _ hnn]
    simp only [secondsPerDay]
    rcases h with hlt | hsame
    · omega
    · unfold same_day at hsame
      rw [Int.fdiv_eq_ediv _ hnn, Int.fdiv_eq_ediv _ hnn] at hsame
      simp only [secondsPerDay] at hsame
      omega

/-- Witness for C2 at concrete inputs: an absent deadline at time 5 is
not urgent, and deadline 0 is urgent at time 86400 (one day later). -/
theorem C2_urgency_bounds_witness :
    calculate_urgency none 5 = false ∧ calculate_urgency (some 0) 86400 = true :=
  ⟨C2_urgency_bounds.1 5, C2_urgency_bounds.2 0 86400 (Or.inl (by decide))⟩

/-- Claim C3: a partial update applies only the fields explicitly
present in the payload; every omitted field — title is the spec's
example, and likewise description, importance and deadline — keeps its
stored value unchanged. -/
theorem C3_omitted_fields_unchanged (t : Task) (u : TaskUpdate) (now : Int) :
    (u.title = none → (update_task t u now).title = t.title) ∧
    (u.description = none → (update_task t u now).description = t.description) ∧
    (u.is_important = none → (update_task t u now).is_important = t.is_important) ∧
    (u.deadline_at = none → (update_task t u now).deadline_at = t.deadline_at) := by
  rcases u with ⟨ut, ud, ui, udl⟩
  unfold update_task apply_update
  cases ut <;> cases ud <;> cases ui <;> cases udl <;> simp_all

/-- Witness for C3 at a concrete task and the all-omitted payload. -/
theorem C3_omitted_fields_unchanged_witness :
    (update_task sampleTask emptyUpdate 0).title = sampleTask.title ∧
    (update_task sampleTask emptyUpdate 0).description = sampleTask.description ∧
    (update_task sampleTask emptyUpdate 0).is_important = sampleTask.is_important ∧
    (update_task sampleTask emptyUpdate 0).deadline_at = sampleTask.deadline_at :=
  ⟨(C3_omitted_fields_unchanged sampleTask emptyUpdate 0).1 rfl,
   (C3_omitted_fields_unchanged sampleTask emptyUpdate 0).2.1 rfl,
   (C3_omitted_fields_unchanged sampleTask emptyUpdate 0).2.2.1 rfl,
   (C3_omitted_fields_unchanged sampleTask emptyUpdate 0).2.2.2 rfl⟩

/-- Claim C4: after a create and after every partial update, whatever
combination of fields the payload supplies, the stored quadrant is one of
the four labels and equals the resolver output for the task's current
importance and urgency, because both are recomputed on every write;
completion preserves the consistency, so it holds after every operation
that writes the task. -/
theorem C4_quadrant_invariant :
    (∀ p id uid created now,
      quadrant_consistent (create_task p id uid created now) ∧
      (create_task p id uid created now).quadrant ∈ ["Q1", "Q2", "Q3", "Q4"]) ∧
    (∀ t u now,
      quadrant_consistent (update_task t u now) ∧
      (update_task t u now).quadrant ∈ ["Q1", "Q2", "Q3", "Q4"]) ∧
    (∀ t now, quadrant_consistent t →
      quadrant_consistent (complete_task t now) ∧
      (complete_task t now).quadrant = t.quadrant) := by
  refine ⟨?_, ?_, ?_⟩
  · intro p id uid created now
    exact ⟨rfl, determine_quadrant_mem_range _ _⟩
  · intro t u now
    exact ⟨rfl, determine_quadrant_mem_range _ _⟩
  · intro t now h
    exact ⟨h, rfl⟩

/-- Witness for C4 at a concrete consistent task and completion time. -/
theorem C4_quadrant_invariant_witness :
    quadrant_consistent (complete_task sampleTask 7) ∧
    (complete_task sampleTask 7).quadrant = sampleTask.quadrant :=
  C4_quadrant_invariant.2.2 sampleTask 7 (by decide)

/-- Claim C5: the deadline-status calculation returns (absent, absent)
for an absent deadline; otherwise it pairs the whole-day difference
`days` with the overdue message when `days < 0`, the deadline-is-today
message when `days = 0`, and the N-days message parameterized by `days`
when `days > 0`. -/
theorem C5_deadline_status :
    (∀ now : Int, deadline_status none now = (none, none)) ∧
    (∀ dl now days : Int,
      calculate_days_until_deadline (some dl) now = some days →
      (deadline_status (some dl) now).1 = some days ∧
      (days < 0 → (deadline_status (some dl) now).2 = some "Задача просрочена") ∧
      (days = 0 → (deadline_status (some dl) now).2 = some "Дедлайн сегодня") ∧
      (0 < days → (deadline_status (some dl) now).2 =
        some s!"До дедлайна осталось {days} дн.")) := by
  constructor
  · intro now; rfl
  · intro dl now days h
    unfold deadline_status
    rw [h]
    refine ⟨rfl, ?_, ?_, ?_⟩
    · intro hneg
      simp only [if_pos hneg]
    · intro h0
      subst h0
      norm_num
    · intro hpos
      simp only [if_neg (by omega : ¬ days < 0), if_neg (by omega : ¬ days = 0)]

/-- Witness for C5 covering the three message branches at concrete
deadlines one day past, the same moment, and three days ahead. -/
theorem C5_deadline_status_witness :
    (deadline_status (some (-86400)) 0).2 = some "Задача просрочена" ∧
    (deadline_status (some 0) 0).2 = some "Дедлайн сегодня" ∧
    (deadline_status (some 259200) 0).2 = some "До дедлайна осталось 3 дн." :=
  ⟨(C5_deadline_status.2 (-86400) 0 (-1) (by decide)).2.1 (by decide),
   (C5_deadline_status.2 0 0 0 (by decide)).2.2.1 rfl,
   (C5_deadline_status.2 259200 0 3 (by decide)).2.2.2 (by decide)⟩

/-- Claim C6 counterexample: the fourth entry of the seed store of
`src/main.py` (lines 47-56) has `completed = true` but carries no
`completed_at` key, so the claimed equivalence fails on that state of
the store. -/
theorem C6_completion_counterexample :
    ((tasks_db 0).get ⟨3, by decide⟩).completed = true ∧
    ((tasks_db 0).get ⟨3, by decide⟩).completed_at = none := by
  exact ⟨rfl, rfl⟩

/-- Claim C6 amended: every task state reachable through the API
mutations of `src/routers/tasks.py` satisfies the equivalence — creation
sets `completed` to false with no `completed_at`, a partial update can
touch neither field, and completion sets both together; the static seed
list of the legacy `src/main.py` is exempt, its completed entry lacking
`completed_at`. -/
theorem C6_completion_invariant :
    (∀ p id uid created now,
      completion_consistent (create_task p id uid created now) ∧
      (create_task p id uid created now).completed = false ∧
      (create_task p id uid created now).completed_at = none) ∧
    (∀ t u now, completion_consistent t →
      completion_consistent (update_task t u now) ∧
      (update_task t u now).completed = t.completed ∧
      (update_task t u now).completed_at = t.completed_at) ∧
    (∀ t now,
      completion_consistent (complete_task t now) ∧
      (complete_task t now).completed = true ∧
      (complete_task t now).completed_at = some now) := by
  refine ⟨?_, ?_, ?_⟩
  · intro p id uid created now
    exact ⟨rfl, rfl, rfl⟩
  · intro t u now h
    rcases u with ⟨ut, ud, ui, udl⟩
    unfold completion_consistent at h ⊢
    unfold update_task apply_update
    cases ut <;> cases ud <;> cases ui <;> cases udl <;> simp_all
  · intro t now
    exact ⟨rfl, rfl, rfl⟩

/-- Witness for C6 at a concrete consistent task and the all-omitted
payload. -/
theorem C6_completion_invariant_witness :
    completion_consistent (update_task sampleTask emptyUpdate 0) ∧
    (update_task sampleTask emptyUpdate 0).completed = sampleTask.completed ∧
    (update_task sampleTask emptyUpdate 0).completed_at = sampleTask.completed_at :=
  C6_completion_invariant.2.1 sampleTask emptyUpdate 0 (by decide)

/-- Claim C7 counterexample: completing the sample task at time 0 and
again at time 1 leaves `completed_at` at the second call's stamp, not
the value the first call set. -/
theorem C7_double_complete_counterexample :
    (complete_task (complete_task sampleTask 0) 1).completed_at ≠
      (complete_task sampleTask 0).completed_at := by
  decide

/-- Claim C7 amended: a second completion call overwrites `completed_at`
with its own clock reading, so the first-set value survives exactly when
the second call observes the same time as the first. -/
theorem C7_double_complete (t : Task) (n1 n2 : Int) :
    (complete_task (complete_task t n1) n2).completed_at = some n2 ∧
    (n2 = n1 →
      (complete_task (complete_task t n1) n2).completed_at =
        (complete_task t n1).completed_at) := by
  constructor
  · rfl
  · intro h
    subst h
    rfl

/-- Witness for C7 with both completion calls at the same time. -/
theorem C7_double_complete_witness :
    (complete_task (complete_task sampleTask 5) 5).completed_at = some 5 ∧
    (complete_task (complete_task sampleTask 5) 5).completed_at =
      (complete_task sampleTask 5).completed_at :=
  ⟨(C7_double_complete sampleTask 5 5).1,
   (C7_double_complete sampleTask 5 5).2 rfl⟩

/-- Claim C8: evaluation of the embedded create path at the failing
input.  In the source the routers pass only the deadline —
`calculate_urgency(task.deadline_at)`, src/routers/tasks.py line 284 —
so the clock is read inside the utility rather than received as an
argument; the embedding necessarily makes that reading the explicit
final argument, and at this input the stored result is urgent and Q1. -/
theorem C8_create_eval :
    (create_task
      { title := "x", description := none, is_important := true,
        deadline_at := some 0 } 1 1 86400 86400).is_urgent = true ∧
    (create_task
      { title := "x", description := none, is_important := true,
        deadline_at := some 0 } 1 1 86400 86400).quadrant = "Q1" := by
  exact ⟨by decide, by decide⟩

/-- Claim C9: applying the payload that carries only
`is_important := true` twice in sequence yields the same final quadrant
and urgency as applying it once — the payload omits the deadline, so the
deadline is unchanged, and both applications observe the same clock
reading. -/
theorem C9_update_idempotent (t : Task) (now : Int) :
    (update_task (update_task t importantOnlyUpdate now)
        importantOnlyUpdate now).quadrant =
      (update_task t importantOnlyUpdate now).quadrant ∧
    (update_task (update_task t importantOnlyUpdate now)
        importantOnlyUpdate now).is_urgent =
      (update_task t importantOnlyUpdate now).is_urgent := by
  constructor <;> rfl

/-- Claim C10: a field sent as explicit null is applied, not ignored —
the explicit-null payload clears the stored deadline, urgency is then
recomputed from the absent deadline and is false, while the all-omitted
payload leaves the deadline untouched; on any task holding a deadline
the two payloads therefore produce different stored deadlines. -/
theorem C10_explicit_null_clears (t : Task) (now : Int) :
    (update_task t clearDeadlineUpdate now).deadline_at = none ∧
    (update_task t clearDeadlineUpdate now).is_urgent = false ∧
    (update_task t emptyUpdate now).deadline_at = t.deadline_at ∧
    (t.deadline_at ≠ none →
      (update_task t clearDeadlineUpdate now).deadline_at ≠
        (update_task t emptyUpdate now).deadline_at) := by
  refine ⟨rfl, rfl, rfl, ?_⟩
  intro h hc
  exact h (Eq.symm hc)

/-- Witness for C10 at a concrete task holding a deadline. -/
theorem C10_explicit_null_clears_witness :
    (update_task { sampleTask with deadline_at := some 0 }
        clearDeadlineUpdate 0).deadline_at = none ∧
    (update_task { sampleTask with deadline_at := some 0 }
        clearDeadlineUpdate 0).deadline_at ≠
      (update_task { sampleTask with deadline_at := some 0 }
        emptyUpdate 0).deadline_at :=
  ⟨(C10_explicit_null_clears { sampleTask with deadline_at := some 0 } 0).1,
   (C10_explicit_null_clears { sampleTask with deadline_at := some 0 } 0).2.2.2
     (by decide)⟩

end ToDoAPI
